import Mathlib

/-!
Shallow embedding of `src/epigen/plink/genmodels.py` (repository fadern/epigen).

Conventions of the embedding:
* Python floats are modelled as rationals (`ℚ`); genotype states as naturals.
* The collaborators imported from `epigen.plink.util` (`joint_maf`,
  `sample_categorical`) and from `math` (`sqrt`) are not part of this file's
  source; they are passed as explicit function parameters where a definition
  needs them.
* Randomness (`random.random`, `random.normalvariate`) is modelled by passing
  the underlying draws explicitly: a uniform draw `u ∈ [0,1)` for
  `random.random()`, and a standard-normal draw `z` for
  `random.normalvariate(mu, sd)`, embedded as `mu + sd * z`.
* Code that can raise a Python exception is embedded in `Except String α`;
  the error string records the exception that the interpreter raises.
-/

namespace Genmodels

/-- Embeds `FixedParams.__init__(maf, ld, sample_size, sample_maf)`: `maf` is the
pair of marginal allele frequencies (or bounds), `ld` the optional LD
strength, `sample_size` the `(cases, controls)` pair. -/
structure FixedParams where
  maf : ℚ × ℚ
  ld : Option ℚ
  sample_size : ℕ × ℕ
  sample_maf : Bool

/-- The marginal drawn inside `get_maf` when `sample_maf` is on:
`start = self.maf[0]; end = self.maf[1] - start; m = start + end * random.random()`. -/
def FixedParams.drawn_marginal (p : FixedParams) (u : ℚ) : ℚ :=
  p.maf.1 + (p.maf.2 - p.maf.1) * u

/-- Embeds `FixedParams.get_maf`, with the collaborator `joint_maf` passed as `jm`
and the two `random.random()` draws passed as `u1`, `u2`. When sampling is
off it returns `joint_maf(self.maf, self.ld)`; when on, it draws the two
marginals and passes them to `joint_maf`. -/
def FixedParams.get_maf (p : FixedParams) (jm : ℚ × ℚ → Option ℚ → List ℚ)
    (u1 u2 : ℚ) : List ℚ :=
  if !p.sample_maf then jm p.maf p.ld
  else jm (p.drawn_marginal u1, p.drawn_marginal u2) p.ld

/-- Embeds `FixedParams.num_samples`: returns `self.sample_size[0]`. -/
def FixedParams.num_samples (p : FixedParams) : ℕ := p.sample_size.1

/-- Embeds `FixedParams.num_cases`: returns `self.sample_size[0]`. -/
def FixedParams.num_cases (p : FixedParams) : ℕ := p.sample_size.1

/-- Embeds `FixedParams.num_controls`: returns `self.sample_size[1]`. -/
def FixedParams.num_controls (p : FixedParams) : ℕ := p.sample_size.2

/-- Embeds `BinomialModel.joint_prob(self, maf, penetrance, phenotype)`.
The Python body is
`geno_prob = [p * f for p, f in zip(penetrance, maf)]`,
`geno_denom = sum(geno_prob)`, `return [g / geno_denom for g in geno_prob]`.
Note that the `phenotype` argument is never used.  When `geno_denom` is zero
and `geno_prob` is nonempty the division raises `ZeroDivisionError` (for an
empty `geno_prob` the comprehension performs no division and returns `[]`). -/
def BinomialModel.joint_prob (maf penetrance : List ℚ) (_phenotype : ℤ) :
    Except String (List ℚ) :=
  let geno_prob := List.zipWith (fun p f => p * f) penetrance maf
  let geno_denom := geno_prob.sum
  if geno_denom = 0 ∧ geno_prob ≠ [] then
    Except.error "ZeroDivisionError: float division by zero"
  else
    Except.ok (geno_prob.map (fun g => g / geno_denom))

/-- What the specification says `joint_prob` computes (Bayes' rule): weight
by the penetrance for label 1 and by its complement for label 0, then
normalize.  Stated from the spec's words, for comparison with
`BinomialModel.joint_prob` above. -/
def joint_prob_claimed (maf penetrance : List ℚ) (phenotype : ℤ) : List ℚ :=
  let w := if phenotype = 1 then List.zipWith (fun p f => p * f) penetrance maf
           else List.zipWith (fun p f => (1 - p) * f) penetrance maf
  w.map (fun g => g / w.sum)

/-- Embeds `BinomialModel.generate_phenotype(self, fixed_params)`:
`[1] * num_cases + [0] * num_controls`. -/
def BinomialModel.generate_phenotype (fixed_params : FixedParams) : List ℤ :=
  List.replicate fixed_params.num_cases 1 ++ List.replicate fixed_params.num_controls 0

/-- Embeds `NormalModel.joint_prob(self, mu, std, maf, pheno)`.  The Python method
`normpdf` is declared as `def normpdf(x, mean, sd)` without a `self`
parameter, yet it is invoked as `self.normpdf(pheno, m, s)`; the bound-method
call therefore passes four positional arguments to a three-parameter
function and raises `TypeError` as soon as the comprehension produces its
first element.  When `zip(mu, std, maf)` is empty no call is made: the
comprehension yields `[]`, the sum is `0`, and the final comprehension over
the empty list returns `[]` without dividing. -/
def NormalModel.joint_prob (mu std maf : List ℚ) (_pheno : ℚ) :
    Except String (List ℚ) :=
  if mu = [] ∨ std = [] ∨ maf = [] then Except.ok []
  else Except.error "TypeError: normpdf() takes 3 positional arguments but 4 were given"

/-- Embeds `NormalModel`: fields as stored by `__init__` (`self.maf` already holds
the derived joint table). -/
structure NormalModel where
  mu : List ℚ
  std : List ℚ
  maf : List ℚ

/-- Embeds `NormalModel.__init__(self, mu, std, maf)`: stores `mu`, `std` and
`joint_maf(maf, None)`, with the collaborator `joint_maf` passed as `jm`. -/
def NormalModel.make (jm : ℚ × ℚ → Option ℚ → List ℚ)
    (mu std : List ℚ) (maf : ℚ × ℚ) : NormalModel :=
  ⟨mu, std, jm maf none⟩

/-- Embeds `NormalModel.generate_phenotype(self, fixed_params)`: moment-matches the
9-state mixture and draws `num_samples` normal variates.  `math.sqrt` is
passed as `sqrtFn` and the standard-normal draws as `z` (draw `i` models the
`i`-th call to `random.normalvariate`, embedded as `mean + sd * z i`). -/
def NormalModel.generate_phenotype (m : NormalModel) (fixed_params : FixedParams)
    (sqrtFn : ℚ → ℚ) (z : ℕ → ℚ) : List ℚ :=
  let mu := (List.zipWith (fun a f => a * f) m.mu m.maf).sum
  let mu2 := (List.zipWith (fun a f => a ^ 2 * f) m.mu m.maf).sum
  let std2 := (List.zipWith (fun s f => s ^ 2 * f) m.std m.maf).sum
  let total_std := sqrtFn (mu2 - mu ^ 2 + std2)
  (List.range fixed_params.num_samples).map (fun i => mu + total_std * z i)

/-- Embeds `NormalParams`: plain holder for `mu` and `std`. -/
structure NormalParams where
  mu : List ℚ
  std : List ℚ

/-- Embeds `BinomialParams`: plain holder for the penetrance matrix. -/
structure BinomialParams where
  penetrance : List ℚ

/-- The duck-typed signature of a mean map's `map` method: a genotype-pair
vector to either a mean, `None` (embedded `Option.none`), or a raised
exception. -/
def MuMapFn : Type := List ℕ → Except String (Option ℚ)

/-- Embeds `GeneralMuMap`: wraps the flat 9-entry mean table. -/
structure GeneralMuMap where
  mu : List ℚ

/-- Embeds `GeneralMuMap.map(self, variants)`: `None` if `3 in variants` or the
arity is not 2, otherwise `self.mu[3 * variants[0] + variants[1]]` (an
out-of-range index would raise `IndexError`). -/
def GeneralMuMap.map (g : GeneralMuMap) : MuMapFn := fun variants =>
  if 3 ∈ variants ∨ variants.length ≠ 2 then Except.ok none
  else
    match g.mu.get? (3 * variants.headI + variants.tail.headI) with
    | some x => Except.ok (some x)
    | none => Except.error "IndexError: list index out of range"

/-- Embeds `AdditiveMuMap`: wraps intercept `beta0`, coefficients `beta` and a link
function. -/
structure AdditiveMuMap where
  beta0 : ℚ
  beta : List ℚ
  link : ℚ → ℚ

/-- Embeds `AdditiveMuMap.map(self, variants)`: `None` if `3 in variants` or the
length differs from `len(self.beta)`.  The else branch reads the bare name
`beta0` instead of `self.beta0`; no such global exists, so every execution
reaching it raises `NameError`. -/
def AdditiveMuMap.map (a : AdditiveMuMap) : MuMapFn := fun variants =>
  if 3 ∈ variants ∨ variants.length ≠ a.beta.length then Except.ok none
  else Except.error "NameError: name beta0 is not defined"

/-- What the specification says `AdditiveMuMap.map` computes on valid input:
`link(intercept + Σ state_value_i * coefficient_i)`.  Stated from the spec's
words, for comparison with `AdditiveMuMap.map` above. -/
def AdditiveMuMap.map_claimed (a : AdditiveMuMap) (variants : List ℕ) : Option ℚ :=
  if 3 ∈ variants ∨ variants.length ≠ a.beta.length then none
  else some (a.link (a.beta0 + (List.zipWith (fun v b => (v : ℚ) * b) variants a.beta).sum))

/-- Embeds `BinomialPhenoGenerator`: holds the mean map (its `map` method). -/
structure BinomialPhenoGenerator where
  mu_map : MuMapFn

/-- Embeds `BinomialPhenoGenerator.generate_pheno(self, variants)`:
`mu = self.mu_map.map(variants); p = random.random(); return int(p <= mu)`.
The uniform draw is passed as `u`.  When the mean map returns `None`,
`p <= None` raises `TypeError` (CPython 3 comparison of `float` with
`NoneType`); a raised exception from the map propagates. -/
def BinomialPhenoGenerator.generate_pheno (g : BinomialPhenoGenerator)
    (u : ℚ) (variants : List ℕ) : Except String ℤ :=
  match g.mu_map variants with
  | Except.error e => Except.error e
  | Except.ok none =>
      Except.error "TypeError: unorderable types: float and NoneType"
  | Except.ok (some mu) => Except.ok (if u ≤ mu then 1 else 0)

/-- Embeds `NormalPhenoGenerator`: holds the mean map and the dispersion. -/
structure NormalPhenoGenerator where
  mu_map : MuMapFn
  dispersion : ℚ

/-- Embeds `NormalPhenoGenerator.generate_pheno(self, variants)`:
`mu = self.mu_map.map(variants); return random.normalvariate(mu, self.dispersion)`,
embedded as `mu + dispersion * z` for the standard-normal draw `z`.  When the
mean map returns `None`, `random.normalvariate(None, sd)` raises `TypeError`
(arithmetic on `NoneType`). -/
def NormalPhenoGenerator.generate_pheno (g : NormalPhenoGenerator)
    (z : ℚ) (variants : List ℕ) : Except String ℚ :=
  match g.mu_map variants with
  | Except.error e => Except.error e
  | Except.ok none =>
      Except.error "TypeError: unsupported operand types for +: NoneType and float"
  | Except.ok (some mu) => Except.ok (mu + g.dispersion * z)

/-- The value returned by `get_pheno_generator`: one of the two generator
objects. -/
inductive PhenoGeneratorChoice where
  | normal (g : NormalPhenoGenerator)
  | binomial (g : BinomialPhenoGenerator)

/-- Embeds `get_pheno_generator(model, mu_map, dispersion)`: dispatch on the model
name; any other key raises `ValueError("No such model {0}.".format(model))`. -/
def get_pheno_generator (model : String) (mu_map : MuMapFn) (dispersion : ℚ) :
    Except String PhenoGeneratorChoice :=
  if model = "normal" then
    Except.ok (PhenoGeneratorChoice.normal ⟨mu_map, dispersion⟩)
  else if model = "binomial" then
    Except.ok (PhenoGeneratorChoice.binomial ⟨mu_map⟩)
  else
    Except.error ("ValueError: No such model " ++ model ++ ".")

/-- The value returned by `get_model_and_params`: the model object paired
with its parameter bundle (`BinomialModel()` carries no state, so the
binomial variant holds only the bundle). -/
inductive ModelChoice where
  | normal (model : NormalModel) (params : NormalParams)
  | binomial (params : BinomialParams)

/-- Embeds `get_model_and_params(model, mu, std, maf)`: for `"normal"` returns
`NormalModel(mu, [std] * 9, maf), NormalParams(mu, [std] * 9)`; for
`"binomial"` returns `BinomialModel(), BinomialParams(mu)`; otherwise raises
`ValueError("Unknown model {0}".format(model))`.  The `joint_maf`
collaborator used by `NormalModel.__init__` is passed as `jm`. -/
def get_model_and_params (jm : ℚ × ℚ → Option ℚ → List ℚ) (model : String)
    (mu : List ℚ) (std : ℚ) (maf : ℚ × ℚ) : Except String ModelChoice :=
  if model = "normal" then
    Except.ok (ModelChoice.normal (NormalModel.make jm mu (List.replicate 9 std) maf)
      ⟨mu, List.replicate 9 std⟩)
  else if model = "binomial" then
    Except.ok (ModelChoice.binomial ⟨mu⟩)
  else
    Except.error ("ValueError: Unknown model " ++ model)


/-!
Concrete tables used by the counterexamples and witnesses below.
-/

/-- Uniform 9-entry joint-frequency table. -/
def unif9 : List ℚ := [1/9, 1/9, 1/9, 1/9, 1/9, 1/9, 1/9, 1/9, 1/9]

/-- Penetrance matrix that is 1 on the first state and 0 elsewhere. -/
def pen_first : List ℚ := [1, 0, 0, 0, 0, 0, 0, 0, 0]

/-- All-ones penetrance matrix. -/
def ones9 : List ℚ := [1, 1, 1, 1, 1, 1, 1, 1, 1]

/-- All-zeros penetrance matrix. -/
def zeros9 : List ℚ := [0, 0, 0, 0, 0, 0, 0, 0, 0]

/-- A 9-entry mean vector of zeros. -/
def mu0_9 : List ℚ := [0, 0, 0, 0, 0, 0, 0, 0, 0]

/-- A 9-entry std-dev vector of ones. -/
def std1_9 : List ℚ := [1, 1, 1, 1, 1, 1, 1, 1, 1]

/-- A 9-entry mean table for the lookup mean map. -/
def mu_half9 : List ℚ := [1/2, 1/2, 1/2, 1/2, 1/2, 1/2, 1/2, 1/2, 1/2]

/-- A concrete additive mean map: intercept 0, coefficients `[1, 1]`,
identity link. -/
def amap : AdditiveMuMap := ⟨0, [1, 1], fun x => x⟩

/-- Dividing every entry of a list by `s` divides its sum by `s`. -/
theorem list_sum_map_div (l : List ℚ) (s : ℚ) :
    (l.map (fun g => g / s)).sum = l.sum / s := by
  induction l with
  | nil => simp
  | cons a t ih => simp [ih, add_div]

/-- Unfolding of `BinomialModel.joint_prob` when the normalizing sum is
nonzero. -/
theorem binomial_joint_prob_eq (maf p : List ℚ) (l : ℤ)
    (h : (List.zipWith (fun x f => x * f) p maf).sum ≠ 0) :
    BinomialModel.joint_prob maf p l =
      Except.ok ((List.zipWith (fun x f => x * f) p maf).map
        (fun g => g / (List.zipWith (fun x f => x * f) p maf).sum)) := by
  simp only [BinomialModel.joint_prob]
  rw [if_neg]
  exact fun hc => h hc.1

/-- C1: the claim says `BinomialModel.joint_prob` multiplies the joint
frequencies by the penetrance for label 1 and by its complement for label 0.
The code never reads the label: with the uniform table and the penetrance
`pen_first`, the label-0 result equals the label-1 result and is the
normalization of `penetrance * freq` (all mass on state 0), while the
spec's Bayes rule `joint_prob_claimed` puts zero mass on state 0 for
label 0. -/
theorem c1_joint_prob_ignores_label :
    BinomialModel.joint_prob unif9 pen_first 0 =
      BinomialModel.joint_prob unif9 pen_first 1 ∧
    BinomialModel.joint_prob unif9 pen_first 0 =
      Except.ok [1, 0, 0, 0, 0, 0, 0, 0, 0] ∧
    joint_prob_claimed unif9 pen_first 0 =
      [0, 1/8, 1/8, 1/8, 1/8, 1/8, 1/8, 1/8, 1/8] := by
  refine ⟨rfl, ?_, ?_⟩ <;>
    norm_num [BinomialModel.joint_prob, joint_prob_claimed, unif9, pen_first]

/-- C2: the claim says `NormalModel.joint_prob` returns, without raising,
the normalized Gaussian-weighted vector.  The method `normpdf` is declared
without a `self` parameter, so the bound call `self.normpdf(pheno, m, s)`
passes four arguments to a three-parameter function: `joint_prob` raises
`TypeError` on every nonempty input. -/
theorem c2_normal_joint_prob_raises :
    NormalModel.joint_prob mu0_9 std1_9 unif9 0 =
      Except.error "TypeError: normpdf() takes 3 positional arguments but 4 were given" := by
  norm_num [NormalModel.joint_prob, mu0_9, std1_9, unif9]
  rintro (h | h | h) <;> exact List.noConfusion h

/-- C7: the claim says an all-zero product vector of the penetrance, or of
its complement, with the joint-frequency table makes `joint_prob` raise a
division-by-zero error.  With the all-ones penetrance and label 0 every
complement product `(1 - p) * f` is zero, yet the code (which ignores the
label and multiplies by the penetrance itself) returns the normalized table.
When the products with the penetrance itself are all zero (all-zeros
penetrance), the unguarded division does raise `ZeroDivisionError`. -/
theorem c7_degenerate_normalization :
    BinomialModel.joint_prob unif9 ones9 0 = Except.ok unif9 ∧
    List.zipWith (fun p f => (1 - p) * f) ones9 unif9 =
      [0, 0, 0, 0, 0, 0, 0, 0, 0] ∧
    BinomialModel.joint_prob unif9 zeros9 1 =
      Except.error "ZeroDivisionError: float division by zero" := by
  refine ⟨?_, ?_, ?_⟩
  · norm_num [BinomialModel.joint_prob, unif9, ones9]
  · norm_num [ones9, unif9]
  · norm_num [BinomialModel.joint_prob, unif9, zeros9]
    intro h
    exact List.noConfusion h

/-- C3 counterexample: the claim says both prospective generators return
"undefined" rather than raising when the mean map reports "undefined".  On
the sentinel-containing input `[3, 1]` the lookup mean map returns `None`,
and each generator then raises a `TypeError` (the binomial one from
comparing a float with `None`, the normal one from doing arithmetic on
`None`) instead of returning an undefined result. -/
theorem c3_generate_pheno_raises_cex :
    GeneralMuMap.map ⟨mu_half9⟩ [3, 1] = Except.ok none ∧
    BinomialPhenoGenerator.generate_pheno ⟨GeneralMuMap.map ⟨mu_half9⟩⟩ (1/2) [3, 1] =
      Except.error "TypeError: unorderable types: float and NoneType" ∧
    NormalPhenoGenerator.generate_pheno ⟨GeneralMuMap.map ⟨mu_half9⟩, 1⟩ 0 [3, 1] =
      Except.error "TypeError: unsupported operand types for +: NoneType and float" := by
  refine ⟨?_, ?_, ?_⟩ <;>
    simp [GeneralMuMap.map, BinomialPhenoGenerator.generate_pheno,
      NormalPhenoGenerator.generate_pheno]

/-- C3 as amended: whenever the mean map reports "undefined" (`None`), both
generators raise a `TypeError` rather than returning an undefined result;
callers cannot rely on the undefined value propagating. -/
theorem c3_generate_pheno_raises_on_undefined (mm : MuMapFn)
    (variants : List ℕ) (u z d : ℚ) (h : mm variants = Except.ok none) :
    BinomialPhenoGenerator.generate_pheno ⟨mm⟩ u variants =
      Except.error "TypeError: unorderable types: float and NoneType" ∧
    NormalPhenoGenerator.generate_pheno ⟨mm, d⟩ z variants =
      Except.error "TypeError: unsupported operand types for +: NoneType and float" := by
  refine ⟨?_, ?_⟩
  · simp [BinomialPhenoGenerator.generate_pheno, h]
  · simp [NormalPhenoGenerator.generate_pheno, h]

/-- C3 witness: the amended theorem applied to a concrete mean map that
reports "undefined" on `[0, 0]`. -/
theorem c3_witness :
    BinomialPhenoGenerator.generate_pheno ⟨fun _ => Except.ok none⟩ 0 [0, 0] =
      Except.error "TypeError: unorderable types: float and NoneType" ∧
    NormalPhenoGenerator.generate_pheno ⟨fun _ => Except.ok none, 1⟩ 0 [0, 0] =
      Except.error "TypeError: unsupported operand types for +: NoneType and float" :=
  c3_generate_pheno_raises_on_undefined (fun _ => Except.ok none) [0, 0] 0 0 1 rfl

/-- C4: the claim says the additive mean map returns
`link(intercept + Σ state_value_i * coefficient_i)` on valid input.  The
guard behaves as claimed (`None` on the sentinel `[3, 1]` and on the
mismatched-length `[1]`), but the valid input `[1, 1]` raises `NameError`
because the code reads the bare name `beta0` instead of `self.beta0`;
the spec's formula `AdditiveMuMap.map_claimed` would return `2`. -/
theorem c4_additive_map_raises :
    AdditiveMuMap.map amap [1, 1] = Except.error "NameError: name beta0 is not defined" ∧
    AdditiveMuMap.map_claimed amap [1, 1] = some 2 ∧
    AdditiveMuMap.map amap [3, 1] = Except.ok none ∧
    AdditiveMuMap.map amap [1] = Except.ok none := by
  refine ⟨?_, ?_, ?_, ?_⟩ <;>
    norm_num [AdditiveMuMap.map, AdditiveMuMap.map_claimed, amap]

/-- C5: the claim says both models' `joint_prob` output sums to 1 whenever
the unnormalized weight vector is not all zero.  This holds for the binary
model (first conjunct, exactly over ℚ), but the continuous model's
`joint_prob` raises `TypeError` on every nonempty input (the `normpdf`
arity defect), so its output never sums to anything (second conjunct). -/
theorem c5_joint_prob_sum_status :
    (∀ (maf penetrance : List ℚ) (l : ℤ),
      (List.zipWith (fun x f => x * f) penetrance maf).sum ≠ 0 →
      ∃ out, BinomialModel.joint_prob maf penetrance l = Except.ok out ∧
        out.sum = 1) ∧
    NormalModel.joint_prob std1_9 std1_9 unif9 1 =
      Except.error "TypeError: normpdf() takes 3 positional arguments but 4 were given" := by
  constructor
  · intro maf p l h
    exact ⟨_, binomial_joint_prob_eq maf p l h, by rw [list_sum_map_div]; exact div_self h⟩
  · norm_num [NormalModel.joint_prob, std1_9, unif9]
    rintro (h | h | h)
    all_goals exact List.noConfusion h

/-- C5 witness: the binary conjunct applied to the uniform table and the
penetrance `pen_first`, whose weight vector sums to 1/9. -/
theorem c5_witness :
    ∃ out, BinomialModel.joint_prob unif9 pen_first 1 = Except.ok out ∧
      out.sum = 1 :=
  c5_joint_prob_sum_status.1 unif9 pen_first 1 (by norm_num [unif9, pen_first])

/-- C6: both factory functions dispatch on the model-name string: any key
other than "normal" and "binomial" yields the `ValueError` (the spec's
InvalidModel error), "normal" yields the continuous model/generator and
"binomial" the binary one, without error. -/
theorem c6_factory_dispatch (mm : MuMapFn) (d : ℚ)
    (jm : ℚ × ℚ → Option ℚ → List ℚ) (mu : List ℚ) (std : ℚ) (maf : ℚ × ℚ) :
    (∀ s : String, s ≠ "normal" → s ≠ "binomial" →
      get_pheno_generator s mm d =
        Except.error ("ValueError: No such model " ++ s ++ ".") ∧
      get_model_and_params jm s mu std maf =
        Except.error ("ValueError: Unknown model " ++ s)) ∧
    get_pheno_generator "normal" mm d =
      Except.ok (PhenoGeneratorChoice.normal ⟨mm, d⟩) ∧
    get_pheno_generator "binomial" mm d =
      Except.ok (PhenoGeneratorChoice.binomial ⟨mm⟩) ∧
    get_model_and_params jm "normal" mu std maf =
      Except.ok (ModelChoice.normal (NormalModel.make jm mu (List.replicate 9 std) maf)
        ⟨mu, List.replicate 9 std⟩) ∧
    get_model_and_params jm "binomial" mu std maf =
      Except.ok (ModelChoice.binomial ⟨mu⟩) := by
  constructor
  · intro s h1 h2
    refine ⟨?_, ?_⟩ <;> simp [get_pheno_generator, get_model_and_params, h1, h2]
  · refine ⟨?_, ?_, ?_, ?_⟩ <;> simp [get_pheno_generator, get_model_and_params]

/-- C6 witness: the unknown key "gaussian" makes both factories fail. -/
theorem c6_witness :
    get_pheno_generator "gaussian" (fun _ => Except.ok none) 0 =
      Except.error ("ValueError: No such model " ++ "gaussian" ++ ".") ∧
    get_model_and_params (fun _ _ => []) "gaussian" [] 0 (0, 0) =
      Except.error ("ValueError: Unknown model " ++ "gaussian") :=
  (c6_factory_dispatch (fun _ => Except.ok none) 0 (fun _ _ => []) [] 0 (0, 0)).1
    "gaussian" (by decide) (by decide)

/-- C8 counterexample: with `sample_size = (3, 2)` the accessor
`num_samples` returns 3, not the total `num_cases + num_controls = 5`:
`num_samples` reads `sample_size[0]` exactly like `num_cases`. -/
theorem c8_num_samples_cex :
    FixedParams.num_samples ⟨(0, 0), none, (3, 2), false⟩ ≠
      FixedParams.num_cases ⟨(0, 0), none, (3, 2), false⟩ +
        FixedParams.num_controls ⟨(0, 0), none, (3, 2), false⟩ := by
  decide

/-- C8 as amended: `num_cases` and `num_controls` return the configured
case and control counts, and `num_samples` returns the case count (the
first `sample_size` component), so it coincides with `num_cases` and
equals the total only when there are zero controls. -/
theorem c8_accessors_amended (p : FixedParams) :
    p.num_samples = p.num_cases ∧ p.num_cases = p.sample_size.1 ∧
      p.num_controls = p.sample_size.2 :=
  ⟨rfl, rfl, rfl⟩

/-- C9: with sampling enabled and bounds `(lo, hi)`, `lo ≤ hi`, each call
of `get_maf` passes to the joint-frequency collaborator the pair of
marginals `lo + (hi - lo) * u₁` and `lo + (hi - lo) * u₂` — each marginal
the affine image of its own independent uniform draw `uᵢ ∈ [0, 1)`, hence
uniform on `[lo, hi)` — and both marginals lie within `[lo, hi]`. -/
theorem c9_get_maf_sampled_marginals (lo hi u1 u2 : ℚ) (ld : Option ℚ)
    (n : ℕ × ℕ) (jm : ℚ × ℚ → Option ℚ → List ℚ)
    (hlh : lo ≤ hi) (h1 : 0 ≤ u1) (h1' : u1 < 1) (h2 : 0 ≤ u2) (h2' : u2 < 1) :
    FixedParams.get_maf ⟨(lo, hi), ld, n, true⟩ jm u1 u2 =
      jm (lo + (hi - lo) * u1, lo + (hi - lo) * u2) ld ∧
    lo ≤ lo + (hi - lo) * u1 ∧ lo + (hi - lo) * u1 ≤ hi ∧
    lo ≤ lo + (hi - lo) * u2 ∧ lo + (hi - lo) * u2 ≤ hi := by
  refine ⟨?_, ?_, ?_, ?_, ?_⟩
  · simp [FixedParams.get_maf, FixedParams.drawn_marginal]
  · nlinarith
  · nlinarith
  · nlinarith
  · nlinarith

/-- C9 witness: bounds `[1/10, 3/10]` with draws `0` and `1/2`. -/
theorem c9_witness :
    FixedParams.get_maf ⟨(1/10, 3/10), none, (0, 0), true⟩
        (fun m _ => [m.1, m.2]) 0 (1/2) =
      (fun (m : ℚ × ℚ) (_ : Option ℚ) => [m.1, m.2])
        (1/10 + (3/10 - 1/10) * 0, 1/10 + (3/10 - 1/10) * (1/2)) none ∧
    (1/10 : ℚ) ≤ 1/10 + (3/10 - 1/10) * 0 ∧
    (1/10 : ℚ) + (3/10 - 1/10) * 0 ≤ 3/10 ∧
    (1/10 : ℚ) ≤ 1/10 + (3/10 - 1/10) * (1/2) ∧
    (1/10 : ℚ) + (3/10 - 1/10) * (1/2) ≤ 3/10 :=
  c9_get_maf_sampled_marginals (1/10) (3/10) 0 (1/2) none (0, 0)
    (fun m _ => [m.1, m.2]) (by norm_num) (by norm_num) (by norm_num)
    (by norm_num) (by norm_num)

/-- C10: the continuous model's phenotype generation reads nothing from the
dataset context except `num_samples` (= `sample_size[0]`): two contexts
agreeing on that component — however much they differ in LD strength, MAF
bounds or the sampling flag — give identical phenotype lists under the same
draws; and the mixture weights stored at construction are the joint table
derived from the constructor's marginals with the LD argument set to
`None`. -/
theorem c10_normal_pheno_independent :
    (∀ (m : NormalModel) (sq : ℚ → ℚ) (z : ℕ → ℚ) (fp fpx : FixedParams),
      fp.sample_size.1 = fpx.sample_size.1 →
      m.generate_phenotype fp sq z = m.generate_phenotype fpx sq z) ∧
    ∀ (jm : ℚ × ℚ → Option ℚ → List ℚ) (mu std : List ℚ) (maf : ℚ × ℚ),
      (NormalModel.make jm mu std maf).maf = jm maf none := by
  refine ⟨fun m sq z fp fpx h => ?_, fun jm mu std maf => rfl⟩
  simp only [NormalModel.generate_phenotype, FixedParams.num_samples, h]

/-- C10 witness: two contexts differing in MAF bounds, LD strength, the
sampling flag and the control count, but with the same first sample-size
component, give the same phenotype list. -/
theorem c10_witness :
    NormalModel.generate_phenotype ⟨[1], [1], [1]⟩ ⟨(0, 0), none, (2, 5), false⟩
        (fun q => q) (fun _ => 0) =
      NormalModel.generate_phenotype ⟨[1], [1], [1]⟩
        ⟨(1/2, 1/2), some (1/2), (2, 0), true⟩ (fun q => q) (fun _ => 0) :=
  c10_normal_pheno_independent.1 ⟨[1], [1], [1]⟩ (fun q => q) (fun _ => 0)
    ⟨(0, 0), none, (2, 5), false⟩ ⟨(1/2, 1/2), some (1/2), (2, 0), true⟩ rfl

end Genmodels
